import Mathlib

/-!
Verification of the ruphin UDP NAT-traversal library: a shallow embedding of
the message codec (src/messages.rs), the protocol socket receive/send error
classification (src/protocol_socket.rs), and the dispatch steps of the role
engine loops (src/passive_holepuncher.rs, src/passive_server.rs,
src/passive_client.rs), together with theorems about the codec round-trip,
the holepuncher registry dispatch, the LocalInterrupt control channel and the
timing of the client hello handshake.

Bytes are modelled as `Nat`; the Rust `u8` type invariant (value < 256) is
supplied as a hypothesis where a theorem depends on it. Machine arithmetic on
`u16` values is modelled with explicit division and remainder by 256; wherever
the Rust code checks a `u16` conversion, the embedding checks the bound 65535.
-/

/-! ## Message type codes and size limits (src/messages.rs lines 9-20) -/

def LOCAL_INTERRUPT : Nat := 1
def REGISTER : Nat := 2
def JOIN : Nat := 3
def PEER_INFO : Nat := 4
def DATA : Nat := 5
def REGISTER_ACK : Nat := 6
def SESSION_NOT_FOUND : Nat := 7
def HELLO_REQ : Nat := 8
def HELLO_RESP : Nat := 9

def MAX_DATA_SIZE : Nat := 1024
def MAX_SESSION_ID_SIZE : Nat := 20

/-! ## Socket addresses (std::net, as used by the repository)

An IPv4 address is four octets; an IPv6 address is sixteen octets. A v6
socket address additionally carries flow-info and scope-id fields, which the
wire format of this protocol does not transport. -/

structure Ipv4Addr where
  o0 : Nat
  o1 : Nat
  o2 : Nat
  o3 : Nat
deriving DecidableEq

structure Ipv6Addr where
  o0 : Nat
  o1 : Nat
  o2 : Nat
  o3 : Nat
  o4 : Nat
  o5 : Nat
  o6 : Nat
  o7 : Nat
  o8 : Nat
  o9 : Nat
  o10 : Nat
  o11 : Nat
  o12 : Nat
  o13 : Nat
  o14 : Nat
  o15 : Nat
deriving DecidableEq

structure SocketAddrV4 where
  ip : Ipv4Addr
  port : Nat
deriving DecidableEq

structure SocketAddrV6 where
  ip : Ipv6Addr
  port : Nat
  flowinfo : Nat
  scope_id : Nat
deriving DecidableEq

inductive SocketAddr where
  | V4 (a : SocketAddrV4)
  | V6 (a : SocketAddrV6)
deriving DecidableEq

inductive IpAddr where
  | V4 (a : Ipv4Addr)
  | V6 (a : Ipv6Addr)
deriving DecidableEq

/-- Rust Ipv4Addr::is_loopback: the first octet is 127. -/
def Ipv4Addr.is_loopback (a : Ipv4Addr) : Bool :=
  a.o0 == 127

/-- Rust Ipv6Addr::is_loopback: the address equals ::1. -/
def Ipv6Addr.is_loopback (a : Ipv6Addr) : Bool :=
  a == ⟨0, 0, 0, 0, 0, 0, 0, 0, 0, 0, 0, 0, 0, 0, 0, 1⟩

/-- Rust SocketAddr::ip. -/
def SocketAddr.ip : SocketAddr → IpAddr
  | .V4 a => .V4 a.ip
  | .V6 a => .V6 a.ip

/-- Rust IpAddr::is_loopback, dispatching on the address family. -/
def IpAddr.is_loopback : IpAddr → Bool
  | .V4 a => a.is_loopback
  | .V6 a => a.is_loopback

/-! ## Messages (src/messages.rs lines 22-64) -/

structure RegisterContents where
  session_id : List Nat
deriving DecidableEq

structure JoinContents where
  session_id : List Nat
deriving DecidableEq

structure DataContents where
  data : List Nat
deriving DecidableEq

structure PeerInfoContents where
  peer_addr : SocketAddr
deriving DecidableEq

structure RegisterAckContents where
  session_id : List Nat
deriving DecidableEq

structure SessionNotFoundContents where
  session_id : List Nat
deriving DecidableEq

inductive Message where
  | LocalInterrupt
  | Register (contents : RegisterContents)
  | Join (contents : JoinContents)
  | Data (contents : DataContents)
  | PeerInfo (contents : PeerInfoContents)
  | RegisterAck (contents : RegisterAckContents)
  | SessionNotFound (contents : SessionNotFoundContents)
  | HelloReq
  | HelloResp
deriving DecidableEq

namespace Message

/-- Rust Message::to_net: split a u16 into big-endian bytes. In every call
site of the source the argument is a u16, hence below 65536, so the top byte
never overflows. -/
def to_net (x : Nat) : Nat × Nat :=
  (x / 256, x % 256)

/-- Rust Message::from_net: reassemble a u16 from two big-endian bytes. In
the source both arguments are u8 values, hence below 256, so the bitwise or
of the shifted top byte with the bottom byte is addition. -/
def from_net (top_byte bottom_byte : Nat) : Nat :=
  top_byte * 256 + bottom_byte

/-- Rust Message::serialize_payload_carrier (src/messages.rs lines 76-101):
build a length-type header followed by the payload. Fails when the total
length does not fit in a u16. -/
def serialize_payload_carrier (packet_type : Nat) (payload : List Nat) :
    Except Unit (List Nat) :=
  let payload_len := payload.length
  if payload_len + 4 > 65535 then
    .error ()
  else
    let total_len := payload_len + 4
    let lenp := to_net total_len
    let typep := to_net packet_type
    .ok (lenp.1 :: lenp.2 :: typep.1 :: typep.2 :: payload)

/-- Rust Message::serialize (src/messages.rs lines 103-188). -/
def serialize : Message → Except Unit (List Nat)
  | .LocalInterrupt =>
    .ok [0, 4, (to_net LOCAL_INTERRUPT).1, (to_net LOCAL_INTERRUPT).2]
  | .HelloReq =>
    .ok [0, 4, (to_net HELLO_REQ).1, (to_net HELLO_REQ).2]
  | .HelloResp =>
    .ok [0, 4, (to_net HELLO_RESP).1, (to_net HELLO_RESP).2]
  | .Register contents =>
    if contents.session_id.length > MAX_SESSION_ID_SIZE then .error ()
    else serialize_payload_carrier REGISTER contents.session_id
  | .RegisterAck contents =>
    if contents.session_id.length > MAX_SESSION_ID_SIZE then .error ()
    else serialize_payload_carrier REGISTER_ACK contents.session_id
  | .Join contents =>
    if contents.session_id.length > MAX_SESSION_ID_SIZE then .error ()
    else serialize_payload_carrier JOIN contents.session_id
  | .SessionNotFound contents =>
    if contents.session_id.length > MAX_SESSION_ID_SIZE then .error ()
    else serialize_payload_carrier SESSION_NOT_FOUND contents.session_id
  | .PeerInfo contents =>
    match contents.peer_addr with
    | .V4 v4_addr =>
      .ok [0, 11, (to_net PEER_INFO).1, (to_net PEER_INFO).2,
           4, v4_addr.ip.o0, v4_addr.ip.o1, v4_addr.ip.o2, v4_addr.ip.o3,
           (to_net v4_addr.port).1, (to_net v4_addr.port).2]
    | .V6 v6_addr =>
      .ok [0, 23, (to_net PEER_INFO).1, (to_net PEER_INFO).2,
           6, v6_addr.ip.o0, v6_addr.ip.o1, v6_addr.ip.o2, v6_addr.ip.o3,
           v6_addr.ip.o4, v6_addr.ip.o5, v6_addr.ip.o6, v6_addr.ip.o7,
           v6_addr.ip.o8, v6_addr.ip.o9, v6_addr.ip.o10, v6_addr.ip.o11,
           v6_addr.ip.o12, v6_addr.ip.o13, v6_addr.ip.o14, v6_addr.ip.o15,
           (to_net v6_addr.port).1, (to_net v6_addr.port).2]
  | .Data contents =>
    if contents.data.length > MAX_DATA_SIZE then .error ()
    else serialize_payload_carrier DATA contents.data

/-- Rust Message::deserialize (src/messages.rs lines 190-346). The first
four bytes are the header; a datagram shorter than that is rejected, which
the list pattern expresses. The local variable length of the source, the
total datagram length, is inlined as rest.length + 4, and msg_type as
from_net type_top type_bot. Payload bytes are the remainder of the list,
exactly what the copy loops of the source produce. Index accesses of the
PeerInfo branch are written with getD; the companion definition
deserializeIdx below mirrors the raw index accesses of the source and is
proved to agree. -/
def deserialize : List Nat → Except Unit Message
  | len_top :: len_bot :: type_top :: type_bot :: rest =>
    if rest.length + 4 ≠ from_net len_top len_bot then .error ()
    else if from_net type_top type_bot = LOCAL_INTERRUPT then
      if rest.length + 4 = 4 then .ok .LocalInterrupt else .error ()
    else if from_net type_top type_bot = HELLO_REQ then
      if rest.length + 4 = 4 then .ok .HelloReq else .error ()
    else if from_net type_top type_bot = HELLO_RESP then
      if rest.length + 4 = 4 then .ok .HelloResp else .error ()
    else if from_net type_top type_bot = REGISTER then
      if rest.length + 4 - 4 > MAX_SESSION_ID_SIZE then .error ()
      else .ok (.Register ⟨rest⟩)
    else if from_net type_top type_bot = REGISTER_ACK then
      if rest.length + 4 - 4 > MAX_SESSION_ID_SIZE then .error ()
      else .ok (.RegisterAck ⟨rest⟩)
    else if from_net type_top type_bot = JOIN then
      if rest.length + 4 - 4 > MAX_SESSION_ID_SIZE then .error ()
      else .ok (.Join ⟨rest⟩)
    else if from_net type_top type_bot = SESSION_NOT_FOUND then
      if rest.length + 4 - 4 > MAX_SESSION_ID_SIZE then .error ()
      else .ok (.SessionNotFound ⟨rest⟩)
    else if from_net type_top type_bot = PEER_INFO then
      if rest.length + 4 = 11 ∧ rest.getD 0 0 = 4 then
        .ok (.PeerInfo ⟨.V4 ⟨⟨rest.getD 1 0, rest.getD 2 0, rest.getD 3 0,
          rest.getD 4 0⟩, from_net (rest.getD 5 0) (rest.getD 6 0)⟩⟩)
      else if rest.length + 4 = 23 ∧ rest.getD 0 0 = 6 then
        .ok (.PeerInfo ⟨.V6 ⟨⟨rest.getD 1 0, rest.getD 2 0, rest.getD 3 0,
          rest.getD 4 0, rest.getD 5 0, rest.getD 6 0, rest.getD 7 0,
          rest.getD 8 0, rest.getD 9 0, rest.getD 10 0, rest.getD 11 0,
          rest.getD 12 0, rest.getD 13 0, rest.getD 14 0, rest.getD 15 0,
          rest.getD 16 0⟩,
          from_net (rest.getD 17 0) (rest.getD 18 0), 0, 0⟩⟩)
      else .error ()
    else if from_net type_top type_bot = DATA then
      if rest.length + 4 - 4 > MAX_DATA_SIZE then .error ()
      else .ok (.Data ⟨rest⟩)
    else .error ()
  | _ => .error ()

/-- The session id carried by a message, when the variant has one. -/
def sessionId : Message → Option (List Nat)
  | .Register c => some c.session_id
  | .RegisterAck c => some c.session_id
  | .Join c => some c.session_id
  | .SessionNotFound c => some c.session_id
  | _ => none

/-- The copy loops of Message::deserialize, with one checked index access per
byte copied: read cnt bytes of l starting at index base. A none result would
correspond to an out-of-bounds slice access, which panics in the source. -/
def copyFrom (l : List Nat) (base : Nat) : Nat → Option (List Nat)
  | 0 => some []
  | n + 1 =>
    match l[base]? with
    | none => none
    | some x =>
      match copyFrom l (base + 1) n with
      | none => none
      | some xs => some (x :: xs)

/-- Message::deserialize with every slice index access of the source
modelled as a checked access, following the access order of
src/messages.rs lines 190-346 (the local variable length of the source is
inlined as the list length): a none result would correspond to an
out-of-bounds access, which panics in the source. The theorem
deserializeIdx_total_and_safe proves that none never occurs and that the
result always agrees with deserialize. -/
def deserializeIdx (l : List Nat) : Option (Except Unit Message) :=
  if l.length < 4 then some (.error ())
  else
    match l[0]?, l[1]?, l[2]?, l[3]? with
    | some len_top, some len_bot, some type_top, some type_bot =>
      if l.length ≠ from_net len_top len_bot then some (.error ())
      else if from_net type_top type_bot = LOCAL_INTERRUPT then
        if l.length = 4 then some (.ok .LocalInterrupt) else some (.error ())
      else if from_net type_top type_bot = HELLO_REQ then
        if l.length = 4 then some (.ok .HelloReq) else some (.error ())
      else if from_net type_top type_bot = HELLO_RESP then
        if l.length = 4 then some (.ok .HelloResp) else some (.error ())
      else if from_net type_top type_bot = REGISTER then
        if l.length - 4 > MAX_SESSION_ID_SIZE then some (.error ())
        else (copyFrom l 4 (l.length - 4)).map (fun sid => .ok (.Register ⟨sid⟩))
      else if from_net type_top type_bot = REGISTER_ACK then
        if l.length - 4 > MAX_SESSION_ID_SIZE then some (.error ())
        else (copyFrom l 4 (l.length - 4)).map (fun sid => .ok (.RegisterAck ⟨sid⟩))
      else if from_net type_top type_bot = JOIN then
        if l.length - 4 > MAX_SESSION_ID_SIZE then some (.error ())
        else (copyFrom l 4 (l.length - 4)).map (fun sid => .ok (.Join ⟨sid⟩))
      else if from_net type_top type_bot = SESSION_NOT_FOUND then
        if l.length - 4 > MAX_SESSION_ID_SIZE then some (.error ())
        else (copyFrom l 4 (l.length - 4)).map (fun sid => .ok (.SessionNotFound ⟨sid⟩))
      else if from_net type_top type_bot = PEER_INFO then
        if l.length = 11 then
          match l[4]? with
          | none => none
          | some fam =>
            if fam = 4 then
              match l[5]?, l[6]?, l[7]?, l[8]?, l[9]?, l[10]? with
              | some a0, some a1, some a2, some a3, some pt, some pb =>
                some (.ok (.PeerInfo ⟨.V4 ⟨⟨a0, a1, a2, a3⟩, from_net pt pb⟩⟩))
              | _, _, _, _, _, _ => none
            else some (.error ())
        else if l.length = 23 then
          match l[4]? with
          | none => none
          | some fam =>
            if fam = 6 then
              match l[5]?, l[6]?, l[7]?, l[8]?, l[9]?, l[10]?, l[11]?,
                    l[12]?, l[13]?, l[14]?, l[15]?, l[16]?, l[17]?, l[18]?,
                    l[19]?, l[20]?, l[21]?, l[22]? with
              | some a0, some a1, some a2, some a3, some a4, some a5,
                some a6, some a7, some a8, some a9, some a10, some a11,
                some a12, some a13, some a14, some a15, some pt, some pb =>
                some (.ok (.PeerInfo ⟨.V6 ⟨⟨a0, a1, a2, a3, a4, a5, a6, a7,
                  a8, a9, a10, a11, a12, a13, a14, a15⟩,
                  from_net pt pb, 0, 0⟩⟩))
              | _, _, _, _, _, _, _, _, _, _, _, _, _, _, _, _, _, _ => none
            else some (.error ())
        else some (.error ())
      else if from_net type_top type_bot = DATA then
        if l.length - 4 > MAX_DATA_SIZE then some (.error ())
        else (copyFrom l 4 (l.length - 4)).map (fun d => .ok (.Data ⟨d⟩))
      else some (.error ())
    | _, _, _, _ => none

/-- Wire type code of each message variant (spec section 3 table). -/
def typeCode : Message → Nat
  | .LocalInterrupt => LOCAL_INTERRUPT
  | .Register _ => REGISTER
  | .Join _ => JOIN
  | .PeerInfo _ => PEER_INFO
  | .Data _ => DATA
  | .RegisterAck _ => REGISTER_ACK
  | .SessionNotFound _ => SESSION_NOT_FOUND
  | .HelloReq => HELLO_REQ
  | .HelloResp => HELLO_RESP

/-- Modelled from the spec: the payload of each variant per the payload
layouts of spec section 4.1: empty for the fixed variants, raw session id or
data bytes for the carriers, and family indicator, address octets and
big-endian port for PeerInfo. -/
def specPayload : Message → List Nat
  | .LocalInterrupt => []
  | .HelloReq => []
  | .HelloResp => []
  | .Register c => c.session_id
  | .Join c => c.session_id
  | .RegisterAck c => c.session_id
  | .SessionNotFound c => c.session_id
  | .Data c => c.data
  | .PeerInfo c =>
    match c.peer_addr with
    | .V4 a =>
      [4, a.ip.o0, a.ip.o1, a.ip.o2, a.ip.o3,
       (to_net a.port).1, (to_net a.port).2]
    | .V6 a =>
      [6, a.ip.o0, a.ip.o1, a.ip.o2, a.ip.o3, a.ip.o4, a.ip.o5, a.ip.o6,
       a.ip.o7, a.ip.o8, a.ip.o9, a.ip.o10, a.ip.o11, a.ip.o12, a.ip.o13,
       a.ip.o14, a.ip.o15, (to_net a.port).1, (to_net a.port).2]

/-- Modelled from the spec: the exact wire byte sequence of spec section
4.1: big-endian u16 total length (payload plus the 4 header bytes),
big-endian u16 type code, then the payload. -/
def specWireBytes (m : Message) : List Nat :=
  let total := m.specPayload.length + 4
  (to_net total).1 :: (to_net total).2 ::
    (to_net m.typeCode).1 :: (to_net m.typeCode).2 :: m.specPayload

/-- Modelled from the claim wording for the encode contract: the message
carries a session id longer than MAX_SESSION_ID_SIZE bytes. -/
def carriesLongSessionId (m : Message) : Bool :=
  match m.sessionId with
  | some sid => decide (sid.length > MAX_SESSION_ID_SIZE)
  | none => false

/-- Modelled from the claim wording for the encode contract: the message is
a Data message with payload longer than MAX_DATA_SIZE bytes. -/
def isOversizedData : Message → Bool
  | .Data c => decide (c.data.length > MAX_DATA_SIZE)
  | _ => false

/-- Modelled from the claim wording for the encode contract: the resulting
total length (payload plus 4) does not fit in a u16. -/
def totalLenOverflows (m : Message) : Bool :=
  decide (m.specPayload.length + 4 > 65535)

/-- Modelled from the claim wording for the encode contract: the exact
disjunction under which the claim says serialize returns an error. -/
def encodeFails (m : Message) : Bool :=
  carriesLongSessionId m || isOversizedData m || totalLenOverflows m

/-- Modelled from the claim wording for the round-trip law: a legal message
carries a session id of at most MAX_SESSION_ID_SIZE bytes and data of at
most MAX_DATA_SIZE bytes. -/
def isLegal (m : Message) : Bool :=
  (match m.sessionId with
   | some sid => decide (sid.length ≤ MAX_SESSION_ID_SIZE)
   | none => true) &&
  (match m with
   | .Data c => decide (c.data.length ≤ MAX_DATA_SIZE)
   | _ => true)

/-- The additional condition the round-trip law needs beyond legality: any
IPv6 peer address in the message has zero flow-info and scope-id, since the
wire format does not carry these fields and decode reconstructs them as
zero. -/
def v6ExtrasZero : Message → Bool
  | .PeerInfo c =>
    match c.peer_addr with
    | .V6 a => decide (a.flowinfo = 0) && decide (a.scope_id = 0)
    | .V4 _ => true
  | _ => true

end Message

/-! ## Protocol socket error classification (src/protocol_socket.rs)

The UDP socket itself is environment behaviour; what the repository adds on
top of it is the decode step of get_message and the fatal versus transient
classification of receive errors, both of which are embedded here. -/

inductive ErrorKind where
  | WouldBlock
  | TimedOut
  | Interrupted
  | OtherError
deriving DecidableEq

inductive ReceiveError where
  | DeserializationFailed
  | ioError (kind : ErrorKind)
deriving DecidableEq

/-- Rust ReceiveError::is_fatal (src/protocol_socket.rs lines 28-40): for an
IO error, would-block, timed-out and interrupted are nonfatal and every other
kind is fatal; any non-IO receive error falls through to the final return of
true, so DeserializationFailed is classified fatal. -/
def ReceiveError.is_fatal : ReceiveError → Bool
  | .ioError io_err =>
    match io_err with
    | .WouldBlock => false
    | .TimedOut => false
    | .Interrupted => false
    | _ => true
  | _ => true

/-- Rust ProtocolSocket::get_message (src/protocol_socket.rs lines 50-68),
expressed as a function of the datagram bytes and source address that the
UDP receive produced: a datagram that fails to decode surfaces as a
DeserializationFailed receive error. -/
def ProtocolSocket.get_message_of (buf : List Nat) (source : SocketAddr) :
    Except ReceiveError (Message × SocketAddr) :=
  match Message.deserialize buf with
  | .ok msg => .ok (msg, source)
  | .error _ => .error .DeserializationFailed

/-! ## Holepuncher session store and serve loop (src/passive_holepuncher.rs) -/

/-- Rust SessionStore wraps a HashMap from session id bytes to socket
addresses. The map is embedded as an association list in which the most
recent insertion comes first; get and insert below realise the observable
HashMap semantics. -/
structure SessionStore where
  storage : List (List Nat × SocketAddr)
deriving DecidableEq

/-- Rust SessionStore::insert (src/passive_holepuncher.rs lines 23-25):
create or overwrite the entry for the session id. -/
def SessionStore.insert (s : SessionStore) (session_id : List Nat)
    (addr : SocketAddr) : SessionStore :=
  ⟨(session_id, addr) :: s.storage⟩

/-- Rust SessionStore::get (src/passive_holepuncher.rs lines 27-32). -/
def SessionStore.get (s : SessionStore) (session_id : List Nat) :
    Option SocketAddr :=
  (s.storage.find? (fun p => p.1 == session_id)).map (fun p => p.2)

namespace PassiveHolepuncher

/-- Outcome of one iteration of the serve loop: keep serving after emitting
the listed (message, destination) datagrams, return normally, or abort with
an error. -/
inductive ServeOutcome where
  | continue_serving (store : SessionStore) (sends : List (Message × SocketAddr))
  | return_ok (store : SessionStore)
  | return_err (store : SessionStore)
deriving DecidableEq

/-- The datagrams emitted by a serve loop iteration. -/
def ServeOutcome.sends : ServeOutcome → List (Message × SocketAddr)
  | .continue_serving _ sends => sends
  | _ => []

/-- The dispatch of one iteration of PassiveHolepuncher::serve
(src/passive_holepuncher.rs lines 104-188), as a function of the result of
get_message. Sends are modelled as emitted (message, destination) pairs; the
timeout bookkeeping around the receive does not affect the dispatch and is
not part of the step. -/
def serveStep (allow_interrupt : Bool) (store : SessionStore)
    (recv : Except ReceiveError (Message × SocketAddr)) : ServeOutcome :=
  match recv with
  | .ok (.HelloReq, source) =>
    .continue_serving store [(.HelloResp, source)]
  | .ok (.LocalInterrupt, source) =>
    if allow_interrupt then
      if source.ip.is_loopback then .return_ok store
      else .continue_serving store []
    else .continue_serving store []
  | .ok (.Register contents, source) =>
    .continue_serving (store.insert contents.session_id source)
      [(.RegisterAck ⟨contents.session_id⟩, source)]
  | .ok (.Join contents, source) =>
    match store.get contents.session_id with
    | some server =>
      .continue_serving store
        [(.PeerInfo ⟨server⟩, source), (.PeerInfo ⟨source⟩, server)]
    | none =>
      .continue_serving store [(.SessionNotFound ⟨contents.session_id⟩, source)]
  | .ok (_, _) =>
    .continue_serving store []
  | .error e =>
    if e.is_fatal then .return_err store else .continue_serving store []

end PassiveHolepuncher

/-! ## Server and client steady-state loops -/

/-- Outcome of one iteration of wait_for_data: keep waiting after emitting
the listed datagrams, return without data, return a received datagram, or
abort with an error. -/
inductive WaitOutcome where
  | continue_waiting (sends : List (Message × SocketAddr))
  | return_none
  | return_data (source : SocketAddr) (data : List Nat)
  | return_err
deriving DecidableEq

/-- The dispatch of one iteration of PassiveServer::wait_for_data
(src/passive_server.rs lines 228-282), as a function of the result of
get_message. The keepalive and deadline bookkeeping before the receive does
not affect this dispatch. -/
def PassiveServer.waitForDataStep (holepuncher : SocketAddr)
    (allow_interrupt : Bool)
    (recv : Except ReceiveError (Message × SocketAddr)) : WaitOutcome :=
  match recv with
  | .ok (.HelloReq, source) =>
    .continue_waiting [(.HelloResp, source)]
  | .ok (.PeerInfo contents, source) =>
    if source = holepuncher then
      .continue_waiting [(.HelloReq, contents.peer_addr)]
    else .continue_waiting []
  | .ok (.Data contents, source) =>
    .return_data source contents.data
  | .ok (.LocalInterrupt, source) =>
    if allow_interrupt then
      if source.ip.is_loopback then .return_none else .continue_waiting []
    else .continue_waiting []
  | .ok (_, _) =>
    .continue_waiting []
  | .error e =>
    if e.is_fatal then .return_err else .continue_waiting []

/-- The dispatch of one iteration of PassiveClient::wait_for_data
(src/passive_client.rs lines 304-358); the source is identical to the server
dispatch apart from the keepalive target outside the dispatch. -/
def PassiveClient.waitForDataStep (holepuncher : SocketAddr)
    (allow_interrupt : Bool)
    (recv : Except ReceiveError (Message × SocketAddr)) : WaitOutcome :=
  match recv with
  | .ok (.HelloReq, source) =>
    .continue_waiting [(.HelloResp, source)]
  | .ok (.PeerInfo contents, source) =>
    if source = holepuncher then
      .continue_waiting [(.HelloReq, contents.peer_addr)]
    else .continue_waiting []
  | .ok (.Data contents, source) =>
    .return_data source contents.data
  | .ok (.LocalInterrupt, source) =>
    if allow_interrupt then
      if source.ip.is_loopback then .return_none else .continue_waiting []
    else .continue_waiting []
  | .ok (_, _) =>
    .continue_waiting []
  | .error e =>
    if e.is_fatal then .return_err else .continue_waiting []

/-! ## Client construction, hello phase timing (src/passive_client.rs) -/

namespace PassiveClient

/-- Overall handshake deadline of 10 seconds, in milliseconds
(src/passive_client.rs line 41). Instants are modelled as milliseconds. -/
def total_timeout : Nat := 10000

/-- Minimal inter-message time of 400 milliseconds
(src/passive_client.rs line 43). -/
def inter_message_time : Nat := 400

/-- Hello handshake attempt cap (src/passive_client.rs line 44). -/
def num_hello_retries : Nat := 3

/-- Mutable state of the hello retry loop: the scheduled earliest next
retransmission instant (src/passive_client.rs line 120) and the count of
HelloReq datagrams sent so far (line 122). -/
structure HelloRetryState where
  next_hello_retry_at : Nat
  num_attempts : Nat
deriving DecidableEq

/-- Guard of the hello retry loop (src/passive_client.rs line 125): the loop
body runs while fewer than num_hello_retries HelloReq datagrams have been
sent and the overall deadline has not passed. -/
def helloLoopGuard (st : HelloRetryState) (now end_time : Nat) : Bool :=
  decide (st.num_attempts < num_hello_retries) && decide (now < end_time)

/-- The retransmission step at the head of the hello retry loop body
(src/passive_client.rs lines 126-138): the source retransmits the HelloReq
when the current instant is below next_hello_retry_at, then reschedules the
next retry and counts the attempt. Returns whether a HelloReq was sent,
together with the updated state. -/
def helloRetryStep (st : HelloRetryState) (now : Nat) : Bool × HelloRetryState :=
  if now < st.next_hello_retry_at then
    (true, ⟨now + inter_message_time, st.num_attempts + 1⟩)
  else
    (false, st)

end PassiveClient

/-! ## Session store lemmas -/

/-- Looking up the just-inserted id finds the just-inserted address. -/
theorem SessionStore.get_insert_self (s : SessionStore) (id : List Nat)
    (addr : SocketAddr) : (s.insert id addr).get id = some addr := by
  simp [SessionStore.get, SessionStore.insert, List.find?_cons_of_pos]

/-- Looking up any other id is unaffected by an insertion. -/
theorem SessionStore.get_insert_ne (s : SessionStore) (id : List Nat)
    (addr : SocketAddr) (id2 : List Nat) (h : id2 ≠ id) :
    (s.insert id addr).get id2 = s.get id2 := by
  have hbeq : (id == id2) = false := by
    simp only [beq_eq_false_iff_ne, ne_eq]
    exact fun e => h e.symm
  simp [SessionStore.get, SessionStore.insert, List.find?_cons_of_neg, hbeq]

/-! ## Claim theorems: role engines -/

/-- C1: the claim states that a datagram that fails to decode is dropped and
every role engine loop continues. The code refutes this: a decode failure
surfaces from get_message as DeserializationFailed, ReceiveError::is_fatal
classifies every non-IO error fatal, and each loop aborts on a fatal receive
error. Concretely, the three-byte datagram [0, 0, 0] fails to decode and
drives the holepuncher serve loop, the server wait_for_data loop and the
client wait_for_data loop into their error return. -/
theorem decode_error_aborts_loops :
    Message.deserialize [0, 0, 0] = .error () ∧
    ProtocolSocket.get_message_of [0, 0, 0] (.V4 ⟨⟨203, 0, 113, 9⟩, 4000⟩) =
      .error .DeserializationFailed ∧
    ReceiveError.is_fatal .DeserializationFailed = true ∧
    PassiveHolepuncher.serveStep true ⟨[]⟩ (.error .DeserializationFailed) =
      .return_err ⟨[]⟩ ∧
    PassiveServer.waitForDataStep (.V4 ⟨⟨127, 0, 0, 1⟩, 9000⟩) true
      (.error .DeserializationFailed) = .return_err ∧
    PassiveClient.waitForDataStep (.V4 ⟨⟨127, 0, 0, 1⟩, 9000⟩) true
      (.error .DeserializationFailed) = .return_err :=
  ⟨rfl, rfl, rfl, rfl, rfl, rfl⟩

/-- C2: the claim states that in the hello phase a HelloReq is retransmitted
only when at least 400 ms have elapsed since the previous send. The code
refutes this: the retransmit condition of the hello loop compares the
current instant with next_hello_retry_at in the inverted direction. With the
previous HelloReq sent at 600 ms, so that the next retry is scheduled no
sooner than 1000 ms, the loop body at 700 ms (only 100 ms after the
previous send, loop guard still true) does retransmit, while the loop body
at 1400 ms (800 ms after the previous send) does not retransmit. -/
theorem hello_retry_condition_inverted :
    PassiveClient.helloLoopGuard ⟨1000, 1⟩ 700 10000 = true ∧
    PassiveClient.helloRetryStep ⟨1000, 1⟩ 700 = (true, ⟨1100, 2⟩) ∧
    PassiveClient.helloLoopGuard ⟨1000, 1⟩ 1400 10000 = true ∧
    PassiveClient.helloRetryStep ⟨1000, 1⟩ 1400 = (false, ⟨1000, 1⟩) :=
  ⟨rfl, rfl, rfl, rfl⟩

/-- C3: when the holepuncher serve loop processes Join(id) from address C
and the registry maps id to S, it sends PeerInfo(S) to C and PeerInfo(C) to
S; when the registry has no entry for id, it sends SessionNotFound(id) to C
and nothing else. The registry is unchanged in both cases. -/
theorem holepuncher_join_dispatch (store : SessionStore) (id : List Nat)
    (C : SocketAddr) (allow_interrupt : Bool) :
    (∀ S, store.get id = some S →
      PassiveHolepuncher.serveStep allow_interrupt store (.ok (.Join ⟨id⟩, C)) =
        .continue_serving store
          [(.PeerInfo ⟨S⟩, C), (.PeerInfo ⟨C⟩, S)]) ∧
    (store.get id = none →
      PassiveHolepuncher.serveStep allow_interrupt store (.ok (.Join ⟨id⟩, C)) =
        .continue_serving store [(.SessionNotFound ⟨id⟩, C)]) := by
  constructor
  · intro S hS
    simp [PassiveHolepuncher.serveStep, hS]
  · intro hnone
    simp [PassiveHolepuncher.serveStep, hnone]

/-- Witness for C3 at a concrete registry holding session [1]. -/
theorem holepuncher_join_dispatch_witness :
    PassiveHolepuncher.serveStep true ⟨[([1], .V4 ⟨⟨9, 9, 9, 9⟩, 1000⟩)]⟩
      (.ok (.Join ⟨[1]⟩, .V4 ⟨⟨8, 8, 8, 8⟩, 2000⟩)) =
    .continue_serving ⟨[([1], .V4 ⟨⟨9, 9, 9, 9⟩, 1000⟩)]⟩
      [(.PeerInfo ⟨.V4 ⟨⟨9, 9, 9, 9⟩, 1000⟩⟩, .V4 ⟨⟨8, 8, 8, 8⟩, 2000⟩),
       (.PeerInfo ⟨.V4 ⟨⟨8, 8, 8, 8⟩, 2000⟩⟩, .V4 ⟨⟨9, 9, 9, 9⟩, 1000⟩)] :=
  (holepuncher_join_dispatch ⟨[([1], .V4 ⟨⟨9, 9, 9, 9⟩, 1000⟩)]⟩ [1]
    (.V4 ⟨⟨8, 8, 8, 8⟩, 2000⟩) true).1 (.V4 ⟨⟨9, 9, 9, 9⟩, 1000⟩) rfl

/-- C4: when the holepuncher serve loop processes Register(id) from S, it
sets the registry entry for id to S, replies RegisterAck(id) to S and
nothing else, and the registry entry of every other id is unchanged. -/
theorem holepuncher_register_dispatch (store : SessionStore) (id : List Nat)
    (S : SocketAddr) (allow_interrupt : Bool) :
    PassiveHolepuncher.serveStep allow_interrupt store (.ok (.Register ⟨id⟩, S)) =
      .continue_serving (store.insert id S) [(.RegisterAck ⟨id⟩, S)] ∧
    (store.insert id S).get id = some S ∧
    ∀ id2, id2 ≠ id → (store.insert id S).get id2 = store.get id2 := by
  refine ⟨rfl, SessionStore.get_insert_self store id S, ?_⟩
  intro id2 h
  exact SessionStore.get_insert_ne store id S id2 h

/-- Witness for C4 at a concrete registry and ids. -/
theorem holepuncher_register_dispatch_witness :
    (SessionStore.insert ⟨[]⟩ [3] (.V4 ⟨⟨1, 2, 3, 4⟩, 50⟩)).get [7] =
      SessionStore.get ⟨[]⟩ [7] :=
  (holepuncher_register_dispatch ⟨[]⟩ [3] (.V4 ⟨⟨1, 2, 3, 4⟩, 50⟩) true).2.2
    [7] (by decide)

/-- C8: in each engine loop, a received LocalInterrupt causes the loop to
return exactly when the loop was started with interrupts allowed and the
datagram source is a loopback address; in every other case the datagram is
ignored, nothing is sent, and the loop continues. -/
theorem local_interrupt_return_iff (allow_interrupt : Bool)
    (store : SessionStore) (hp hpc source : SocketAddr) :
    (PassiveHolepuncher.serveStep allow_interrupt store
        (.ok (.LocalInterrupt, source)) = .return_ok store ↔
      allow_interrupt = true ∧ source.ip.is_loopback = true) ∧
    (¬(allow_interrupt = true ∧ source.ip.is_loopback = true) →
      PassiveHolepuncher.serveStep allow_interrupt store
        (.ok (.LocalInterrupt, source)) = .continue_serving store []) ∧
    (PassiveServer.waitForDataStep hp allow_interrupt
        (.ok (.LocalInterrupt, source)) = .return_none ↔
      allow_interrupt = true ∧ source.ip.is_loopback = true) ∧
    (¬(allow_interrupt = true ∧ source.ip.is_loopback = true) →
      PassiveServer.waitForDataStep hp allow_interrupt
        (.ok (.LocalInterrupt, source)) = .continue_waiting []) ∧
    (PassiveClient.waitForDataStep hpc allow_interrupt
        (.ok (.LocalInterrupt, source)) = .return_none ↔
      allow_interrupt = true ∧ source.ip.is_loopback = true) ∧
    (¬(allow_interrupt = true ∧ source.ip.is_loopback = true) →
      PassiveClient.waitForDataStep hpc allow_interrupt
        (.ok (.LocalInterrupt, source)) = .continue_waiting []) := by
  cases allow_interrupt <;> cases h : source.ip.is_loopback <;>
    simp [PassiveHolepuncher.serveStep, PassiveServer.waitForDataStep,
      PassiveClient.waitForDataStep, h]

/-- Witness for C8: a LocalInterrupt from a non-loopback source is ignored
by the holepuncher even with interrupts allowed. -/
theorem local_interrupt_return_iff_witness :
    PassiveHolepuncher.serveStep true ⟨[]⟩
      (.ok (.LocalInterrupt, .V4 ⟨⟨10, 0, 0, 1⟩, 177⟩)) =
      .continue_serving ⟨[]⟩ [] :=
  (local_interrupt_return_iff true ⟨[]⟩ (.V4 ⟨⟨127, 0, 0, 1⟩, 1⟩)
    (.V4 ⟨⟨127, 0, 0, 1⟩, 1⟩) (.V4 ⟨⟨10, 0, 0, 1⟩, 177⟩)).2.1 (by decide)

/-! ## Codec lemmas -/

/-- Reassembling the big-endian byte split of a number gives the number
back. -/
theorem Message.from_net_to_net (x : Nat) :
    Message.from_net (Message.to_net x).1 (Message.to_net x).2 = x := by
  simp [Message.from_net, Message.to_net]
  omega

/-- The big-endian byte split is the unique byte pair reassembling to a
number. -/
theorem Message.to_net_eq_of_from_net (t a b : Nat) (hb : b < 256)
    (h : Message.from_net a b = t) : Message.to_net t = (a, b) := by
  simp only [Message.from_net] at h
  simp only [Message.to_net, Prod.mk.injEq]
  omega

/-- Binding a successful Except value applies the continuation. -/
theorem except_ok_bind {ε α β} (a : α) (f : α → Except ε β) :
    Except.bind (Except.ok a) f = f a := rfl

/-! ## Claim theorems: codec -/

/-- C5 (amended): for every message whose session id is at most
MAX_SESSION_ID_SIZE bytes and whose data is at most MAX_DATA_SIZE bytes,
and whose IPv6 peer address (when the message is a v6 PeerInfo) carries
zero flow-info and scope-id, deserialization of its serialization succeeds
and returns the message itself. -/
theorem serialize_roundtrip (m : Message) (hleg : m.isLegal = true)
    (hv6 : m.v6ExtrasZero = true) :
    (Message.serialize m).bind Message.deserialize = .ok m := by
  cases m with
  | LocalInterrupt => rfl
  | HelloReq => rfl
  | HelloResp => rfl
  | Register c =>
    obtain ⟨sid⟩ := c
    have hlen : sid.length ≤ 20 := by
      simpa [Message.isLegal, Message.sessionId, MAX_SESSION_ID_SIZE] using hleg
    have hgt : ¬ sid.length > MAX_SESSION_ID_SIZE := by
      simp only [MAX_SESSION_ID_SIZE, gt_iff_lt, not_lt]
      exact hlen
    have hflip : ¬ 20 < sid.length := by omega
    have hover : ¬ sid.length + 4 > 65535 := by omega
    have ht := Message.from_net_to_net (sid.length + 4)
    simp only [Message.serialize]
    rw [if_neg hgt]
    simp only [Message.serialize_payload_carrier]
    rw [if_neg hover]
    rw [except_ok_bind]
    simp [Message.deserialize, ht, hflip, Message.from_net, Message.to_net,
      LOCAL_INTERRUPT, HELLO_REQ, HELLO_RESP, REGISTER, REGISTER_ACK, JOIN,
      SESSION_NOT_FOUND, PEER_INFO, DATA, MAX_SESSION_ID_SIZE, MAX_DATA_SIZE]
    all_goals omega
  | RegisterAck c =>
    obtain ⟨sid⟩ := c
    have hlen : sid.length ≤ 20 := by
      simpa [Message.isLegal, Message.sessionId, MAX_SESSION_ID_SIZE] using hleg
    have hgt : ¬ sid.length > MAX_SESSION_ID_SIZE := by
      simp only [MAX_SESSION_ID_SIZE, gt_iff_lt, not_lt]
      exact hlen
    have hflip : ¬ 20 < sid.length := by omega
    have hover : ¬ sid.length + 4 > 65535 := by omega
    have ht := Message.from_net_to_net (sid.length + 4)
    simp only [Message.serialize]
    rw [if_neg hgt]
    simp only [Message.serialize_payload_carrier]
    rw [if_neg hover]
    rw [except_ok_bind]
    simp [Message.deserialize, ht, hflip, Message.from_net, Message.to_net,
      LOCAL_INTERRUPT, HELLO_REQ, HELLO_RESP, REGISTER, REGISTER_ACK, JOIN,
      SESSION_NOT_FOUND, PEER_INFO, DATA, MAX_SESSION_ID_SIZE, MAX_DATA_SIZE]
    all_goals omega
  | Join c =>
    obtain ⟨sid⟩ := c
    have hlen : sid.length ≤ 20 := by
      simpa [Message.isLegal, Message.sessionId, MAX_SESSION_ID_SIZE] using hleg
    have hgt : ¬ sid.length > MAX_SESSION_ID_SIZE := by
      simp only [MAX_SESSION_ID_SIZE, gt_iff_lt, not_lt]
      exact hlen
    have hflip : ¬ 20 < sid.length := by omega
    have hover : ¬ sid.length + 4 > 65535 := by omega
    have ht := Message.from_net_to_net (sid.length + 4)
    simp only [Message.serialize]
    rw [if_neg hgt]
    simp only [Message.serialize_payload_carrier]
    rw [if_neg hover]
    rw [except_ok_bind]
    simp [Message.deserialize, ht, hflip, Message.from_net, Message.to_net,
      LOCAL_INTERRUPT, HELLO_REQ, HELLO_RESP, REGISTER, REGISTER_ACK, JOIN,
      SESSION_NOT_FOUND, PEER_INFO, DATA, MAX_SESSION_ID_SIZE, MAX_DATA_SIZE]
    all_goals omega
  | SessionNotFound c =>
    obtain ⟨sid⟩ := c
    have hlen : sid.length ≤ 20 := by
      simpa [Message.isLegal, Message.sessionId, MAX_SESSION_ID_SIZE] using hleg
    have hgt : ¬ sid.length > MAX_SESSION_ID_SIZE := by
      simp only [MAX_SESSION_ID_SIZE, gt_iff_lt, not_lt]
      exact hlen
    have hflip : ¬ 20 < sid.length := by omega
    have hover : ¬ sid.length + 4 > 65535 := by omega
    have ht := Message.from_net_to_net (sid.length + 4)
    simp only [Message.serialize]
    rw [if_neg hgt]
    simp only [Message.serialize_payload_carrier]
    rw [if_neg hover]
    rw [except_ok_bind]
    simp [Message.deserialize, ht, hflip, Message.from_net, Message.to_net,
      LOCAL_INTERRUPT, HELLO_REQ, HELLO_RESP, REGISTER, REGISTER_ACK, JOIN,
      SESSION_NOT_FOUND, PEER_INFO, DATA, MAX_SESSION_ID_SIZE, MAX_DATA_SIZE]
    all_goals omega
  | Data c =>
    obtain ⟨d⟩ := c
    have hlen : d.length ≤ 1024 := by
      simpa [Message.isLegal, Message.sessionId, MAX_DATA_SIZE] using hleg
    have hgt : ¬ d.length > MAX_DATA_SIZE := by
      simp only [MAX_DATA_SIZE, gt_iff_lt, not_lt]
      exact hlen
    have hflip : ¬ 1024 < d.length := by omega
    have hover : ¬ d.length + 4 > 65535 := by omega
    have ht := Message.from_net_to_net (d.length + 4)
    simp only [Message.serialize]
    rw [if_neg hgt]
    simp only [Message.serialize_payload_carrier]
    rw [if_neg hover]
    rw [except_ok_bind]
    simp [Message.deserialize, ht, hflip, Message.from_net, Message.to_net,
      LOCAL_INTERRUPT, HELLO_REQ, HELLO_RESP, REGISTER, REGISTER_ACK, JOIN,
      SESSION_NOT_FOUND, PEER_INFO, DATA, MAX_SESSION_ID_SIZE, MAX_DATA_SIZE]
    all_goals omega
  | PeerInfo c =>
    obtain ⟨addr⟩ := c
    cases addr with
    | V4 a =>
      obtain ⟨⟨o0, o1, o2, o3⟩, port⟩ := a
      have hp := Message.from_net_to_net port
      simp [Message.serialize, except_ok_bind, Message.deserialize, hp,
        Message.from_net, Message.to_net, LOCAL_INTERRUPT, HELLO_REQ,
        HELLO_RESP, REGISTER, REGISTER_ACK, JOIN, SESSION_NOT_FOUND,
        PEER_INFO, DATA]
      all_goals omega
    | V6 a =>
      obtain ⟨ip, port, fi, sc⟩ := a
      have hz : fi = 0 ∧ sc = 0 := by
        simpa [Message.v6ExtrasZero] using hv6
      obtain ⟨rfl, rfl⟩ := hz
      have hp := Message.from_net_to_net port
      simp [Message.serialize, except_ok_bind, Message.deserialize, hp,
        Message.from_net, Message.to_net, LOCAL_INTERRUPT, HELLO_REQ,
        HELLO_RESP, REGISTER, REGISTER_ACK, JOIN, SESSION_NOT_FOUND,
        PEER_INFO, DATA]
      all_goals omega

/-- Witness for C5 at a concrete legal Register message. -/
theorem serialize_roundtrip_witness :
    (Message.serialize (.Register ⟨[1, 2, 3]⟩)).bind Message.deserialize =
      .ok (.Register ⟨[1, 2, 3]⟩) :=
  serialize_roundtrip (.Register ⟨[1, 2, 3]⟩) (by decide) (by decide)

/-- C5 counterexample: PeerInfo carrying the IPv6 address ::2 with nonzero
flow-info is legal in the sense of the claim (its session id and data
bounds hold vacuously), yet decoding its encoding yields the message with
flow-info reset to zero, which differs from the original message. -/
theorem serialize_roundtrip_counterexample :
    Message.isLegal (.PeerInfo ⟨.V6
      ⟨⟨0, 0, 0, 0, 0, 0, 0, 0, 0, 0, 0, 0, 0, 0, 0, 2⟩, 7, 1, 0⟩⟩) = true ∧
    (Message.serialize (.PeerInfo ⟨.V6
        ⟨⟨0, 0, 0, 0, 0, 0, 0, 0, 0, 0, 0, 0, 0, 0, 0, 2⟩, 7, 1, 0⟩⟩)).bind
      Message.deserialize =
      .ok (.PeerInfo ⟨.V6
        ⟨⟨0, 0, 0, 0, 0, 0, 0, 0, 0, 0, 0, 0, 0, 0, 0, 2⟩, 7, 0, 0⟩⟩) ∧
    Message.PeerInfo ⟨.V6
        ⟨⟨0, 0, 0, 0, 0, 0, 0, 0, 0, 0, 0, 0, 0, 0, 0, 2⟩, 7, 0, 0⟩⟩ ≠
      .PeerInfo ⟨.V6
        ⟨⟨0, 0, 0, 0, 0, 0, 0, 0, 0, 0, 0, 0, 0, 0, 0, 2⟩, 7, 1, 0⟩⟩ :=
  ⟨rfl, by rfl, by decide⟩

/-- C6: serialize returns an error exactly when the message carries a
session id longer than MAX_SESSION_ID_SIZE bytes, or is a Data message with
payload longer than MAX_DATA_SIZE bytes, or the resulting total length
(payload plus 4) does not fit in a u16; for every other message it returns
the exact wire byte sequence of the specified format. -/
theorem serialize_error_characterization (m : Message) :
    (Message.serialize m = .error () ↔ m.encodeFails = true) ∧
    (m.encodeFails = false → Message.serialize m = .ok m.specWireBytes) := by
  cases m with
  | LocalInterrupt =>
    refine ⟨?_, fun _ => rfl⟩
    simp [Message.serialize, Message.encodeFails, Message.carriesLongSessionId,
      Message.sessionId, Message.isOversizedData, Message.totalLenOverflows,
      Message.specPayload]
  | HelloReq =>
    refine ⟨?_, fun _ => rfl⟩
    simp [Message.serialize, Message.encodeFails, Message.carriesLongSessionId,
      Message.sessionId, Message.isOversizedData, Message.totalLenOverflows,
      Message.specPayload]
  | HelloResp =>
    refine ⟨?_, fun _ => rfl⟩
    simp [Message.serialize, Message.encodeFails, Message.carriesLongSessionId,
      Message.sessionId, Message.isOversizedData, Message.totalLenOverflows,
      Message.specPayload]
  | PeerInfo c =>
    obtain ⟨addr⟩ := c
    cases addr with
    | V4 a =>
      refine ⟨?_, fun _ => ?_⟩
      · simp [Message.serialize, Message.encodeFails,
          Message.carriesLongSessionId, Message.sessionId,
          Message.isOversizedData, Message.totalLenOverflows,
          Message.specPayload]
      · simp [Message.serialize, Message.specWireBytes, Message.specPayload,
          Message.typeCode, Message.to_net, PEER_INFO]
    | V6 a =>
      refine ⟨?_, fun _ => ?_⟩
      · simp [Message.serialize, Message.encodeFails,
          Message.carriesLongSessionId, Message.sessionId,
          Message.isOversizedData, Message.totalLenOverflows,
          Message.specPayload]
      · simp [Message.serialize, Message.specWireBytes, Message.specPayload,
          Message.typeCode, Message.to_net, PEER_INFO]
  | Register c =>
    obtain ⟨sid⟩ := c
    by_cases h : sid.length > MAX_SESSION_ID_SIZE
    · have hn : 20 < sid.length := by simpa [MAX_SESSION_ID_SIZE] using h
      refine ⟨?_, fun hf => absurd hf ?_⟩
      · simp [Message.serialize, Message.encodeFails,
          Message.carriesLongSessionId, Message.sessionId,
          MAX_SESSION_ID_SIZE, hn]
      · simp [Message.encodeFails, Message.carriesLongSessionId,
          Message.sessionId, MAX_SESSION_ID_SIZE, hn]
    · have hnum : sid.length ≤ 20 := by
        simpa [MAX_SESSION_ID_SIZE, not_lt] using h
      have hn2 : ¬ 20 < sid.length := by omega
      have hover : ¬ sid.length + 4 > 65535 := by omega
      constructor
      · simp [Message.serialize, Message.serialize_payload_carrier,
          Message.encodeFails, Message.carriesLongSessionId,
          Message.sessionId, Message.isOversizedData,
          Message.totalLenOverflows, Message.specPayload,
          MAX_SESSION_ID_SIZE, hn2, hover]
      · intro _
        simp [Message.serialize, Message.serialize_payload_carrier,
          Message.specWireBytes, Message.specPayload, Message.typeCode,
          MAX_SESSION_ID_SIZE, hn2, hover]
  | RegisterAck c =>
    obtain ⟨sid⟩ := c
    by_cases h : sid.length > MAX_SESSION_ID_SIZE
    · have hn : 20 < sid.length := by simpa [MAX_SESSION_ID_SIZE] using h
      refine ⟨?_, fun hf => absurd hf ?_⟩
      · simp [Message.serialize, Message.encodeFails,
          Message.carriesLongSessionId, Message.sessionId,
          MAX_SESSION_ID_SIZE, hn]
      · simp [Message.encodeFails, Message.carriesLongSessionId,
          Message.sessionId, MAX_SESSION_ID_SIZE, hn]
    · have hnum : sid.length ≤ 20 := by
        simpa [MAX_SESSION_ID_SIZE, not_lt] using h
      have hn2 : ¬ 20 < sid.length := by omega
      have hover : ¬ sid.length + 4 > 65535 := by omega
      constructor
      · simp [Message.serialize, Message.serialize_payload_carrier,
          Message.encodeFails, Message.carriesLongSessionId,
          Message.sessionId, Message.isOversizedData,
          Message.totalLenOverflows, Message.specPayload,
          MAX_SESSION_ID_SIZE, hn2, hover]
      · intro _
        simp [Message.serialize, Message.serialize_payload_carrier,
          Message.specWireBytes, Message.specPayload, Message.typeCode,
          MAX_SESSION_ID_SIZE, hn2, hover]
  | Join c =>
    obtain ⟨sid⟩ := c
    by_cases h : sid.length > MAX_SESSION_ID_SIZE
    · have hn : 20 < sid.length := by simpa [MAX_SESSION_ID_SIZE] using h
      refine ⟨?_, fun hf => absurd hf ?_⟩
      · simp [Message.serialize, Message.encodeFails,
          Message.carriesLongSessionId, Message.sessionId,
          MAX_SESSION_ID_SIZE, hn]
      · simp [Message.encodeFails, Message.carriesLongSessionId,
          Message.sessionId, MAX_SESSION_ID_SIZE, hn]
    · have hnum : sid.length ≤ 20 := by
        simpa [MAX_SESSION_ID_SIZE, not_lt] using h
      have hn2 : ¬ 20 < sid.length := by omega
      have hover : ¬ sid.length + 4 > 65535 := by omega
      constructor
      · simp [Message.serialize, Message.serialize_payload_carrier,
          Message.encodeFails, Message.carriesLongSessionId,
          Message.sessionId, Message.isOversizedData,
          Message.totalLenOverflows, Message.specPayload,
          MAX_SESSION_ID_SIZE, hn2, hover]
      · intro _
        simp [Message.serialize, Message.serialize_payload_carrier,
          Message.specWireBytes, Message.specPayload, Message.typeCode,
          MAX_SESSION_ID_SIZE, hn2, hover]
  | SessionNotFound c =>
    obtain ⟨sid⟩ := c
    by_cases h : sid.length > MAX_SESSION_ID_SIZE
    · have hn : 20 < sid.length := by simpa [MAX_SESSION_ID_SIZE] using h
      refine ⟨?_, fun hf => absurd hf ?_⟩
      · simp [Message.serialize, Message.encodeFails,
          Message.carriesLongSessionId, Message.sessionId,
          MAX_SESSION_ID_SIZE, hn]
      · simp [Message.encodeFails, Message.carriesLongSessionId,
          Message.sessionId, MAX_SESSION_ID_SIZE, hn]
    · have hnum : sid.length ≤ 20 := by
        simpa [MAX_SESSION_ID_SIZE, not_lt] using h
      have hn2 : ¬ 20 < sid.length := by omega
      have hover : ¬ sid.length + 4 > 65535 := by omega
      constructor
      · simp [Message.serialize, Message.serialize_payload_carrier,
          Message.encodeFails, Message.carriesLongSessionId,
          Message.sessionId, Message.isOversizedData,
          Message.totalLenOverflows, Message.specPayload,
          MAX_SESSION_ID_SIZE, hn2, hover]
      · intro _
        simp [Message.serialize, Message.serialize_payload_carrier,
          Message.specWireBytes, Message.specPayload, Message.typeCode,
          MAX_SESSION_ID_SIZE, hn2, hover]
  | Data c =>
    obtain ⟨d⟩ := c
    by_cases h : d.length > MAX_DATA_SIZE
    · have hn : 1024 < d.length := by simpa [MAX_DATA_SIZE] using h
      refine ⟨?_, fun hf => absurd hf ?_⟩
      · simp [Message.serialize, Message.encodeFails,
          Message.carriesLongSessionId, Message.sessionId,
          Message.isOversizedData, MAX_DATA_SIZE, hn]
      · simp [Message.encodeFails, Message.isOversizedData,
          MAX_DATA_SIZE, hn]
    · have hnum : d.length ≤ 1024 := by
        simpa [MAX_DATA_SIZE, not_lt] using h
      have hn2 : ¬ 1024 < d.length := by omega
      have hover : ¬ d.length + 4 > 65535 := by omega
      constructor
      · simp [Message.serialize, Message.serialize_payload_carrier,
          Message.encodeFails, Message.carriesLongSessionId,
          Message.sessionId, Message.isOversizedData,
          Message.totalLenOverflows, Message.specPayload,
          MAX_DATA_SIZE, hn2, hover]
      · intro _
        simp [Message.serialize, Message.serialize_payload_carrier,
          Message.specWireBytes, Message.specPayload, Message.typeCode,
          MAX_DATA_SIZE, hn2, hover]

/-- Witness for C6: a small Join message serializes to the exact specified
byte sequence. -/
theorem serialize_error_characterization_witness :
    Message.serialize (.Join ⟨[5]⟩) = .ok (Message.specWireBytes (.Join ⟨[5]⟩)) :=
  (serialize_error_characterization (.Join ⟨[5]⟩)).2 (by rfl)

/-- C7: for every byte string, deserialization either fails or returns a
message whose serialization succeeds and reproduces the input bytes
exactly. -/
theorem deserialize_encode_inverse (l : List Nat) (hb : ∀ x ∈ l, x < 256)
    (m : Message) (h : Message.deserialize l = .ok m) :
    Message.serialize m = .ok l := by
  match l, hb, h with
  | [], hb, h => exact Except.noConfusion h
  | [_], hb, h => exact Except.noConfusion h
  | [_, _], hb, h => exact Except.noConfusion h
  | [_, _, _], hb, h => exact Except.noConfusion h
  | b0 :: b1 :: b2 :: b3 :: rest, hb, h =>
    have hb1 : b1 < 256 := hb b1 (by simp)
    have hb3 : b3 < 256 := hb b3 (by simp)
    have hrest : ∀ x ∈ rest, x < 256 := fun x hx => hb x (by simp [hx])
    unfold Message.deserialize at h
    split at h
    case h_2 =>
      rename_i hno
      exact (hno b0 b1 b2 b3 rest rfl).elim
    rename_i lt lb tt2 tb rest2 heq
    injection heq with e0 heq
    injection heq with e1 heq
    injection heq with e2 heq
    injection heq with e3 e4
    subst e0
    subst e1
    subst e2
    subst e3
    subst e4
    by_cases hc1 : rest.length + 4 ≠ Message.from_net b0 b1
    · rw [if_pos hc1] at h
      exact Except.noConfusion h
    rw [if_neg hc1] at h
    rw [not_ne_iff] at hc1
    have hlen := hc1
    by_cases ht1 : Message.from_net b2 b3 = LOCAL_INTERRUPT
    · rw [if_pos ht1] at h
      by_cases h4 : rest.length + 4 = 4
      · rw [if_pos h4] at h
        injection h with hm
        subst hm
        simp only [Message.from_net, LOCAL_INTERRUPT] at hlen ht1
        obtain rfl : b0 = 0 := by omega
        obtain rfl : b1 = 4 := by omega
        obtain rfl : b2 = 0 := by omega
        obtain rfl : b3 = 1 := by omega
        obtain rfl : rest = [] := List.eq_nil_of_length_eq_zero (by omega)
        rfl
      · rw [if_neg h4] at h
        exact Except.noConfusion h
    rw [if_neg ht1] at h
    by_cases ht2 : Message.from_net b2 b3 = HELLO_REQ
    · rw [if_pos ht2] at h
      by_cases h4 : rest.length + 4 = 4
      · rw [if_pos h4] at h
        injection h with hm
        subst hm
        simp only [Message.from_net, HELLO_REQ] at hlen ht2
        obtain rfl : b0 = 0 := by omega
        obtain rfl : b1 = 4 := by omega
        obtain rfl : b2 = 0 := by omega
        obtain rfl : b3 = 8 := by omega
        obtain rfl : rest = [] := List.eq_nil_of_length_eq_zero (by omega)
        rfl
      · rw [if_neg h4] at h
        exact Except.noConfusion h
    rw [if_neg ht2] at h
    by_cases ht3 : Message.from_net b2 b3 = HELLO_RESP
    · rw [if_pos ht3] at h
      by_cases h4 : rest.length + 4 = 4
      · rw [if_pos h4] at h
        injection h with hm
        subst hm
        simp only [Message.from_net, HELLO_RESP] at hlen ht3
        obtain rfl : b0 = 0 := by omega
        obtain rfl : b1 = 4 := by omega
        obtain rfl : b2 = 0 := by omega
        obtain rfl : b3 = 9 := by omega
        obtain rfl : rest = [] := List.eq_nil_of_length_eq_zero (by omega)
        rfl
      · rw [if_neg h4] at h
        exact Except.noConfusion h
    rw [if_neg ht3] at h
    by_cases ht4 : Message.from_net b2 b3 = REGISTER
    · rw [if_pos ht4] at h
      by_cases hsz : rest.length + 4 - 4 > MAX_SESSION_ID_SIZE
      · rw [if_pos hsz] at h
        exact Except.noConfusion h
      · rw [if_neg hsz] at h
        injection h with hm
        subst hm
        have hszB : rest.length ≤ 20 := by
          simp only [MAX_SESSION_ID_SIZE, gt_iff_lt, not_lt] at hsz
          omega
        have hgt : ¬ (rest.length > MAX_SESSION_ID_SIZE) := by
          simp only [MAX_SESSION_ID_SIZE, gt_iff_lt, not_lt]
          omega
        have hover : ¬ (rest.length + 4 > 65535) := by omega
        simp only [Message.serialize]
        rw [if_neg hgt]
        simp only [Message.serialize_payload_carrier]
        rw [if_neg hover]
        rw [Message.to_net_eq_of_from_net (rest.length + 4) b0 b1 hb1 hlen.symm]
        rw [Message.to_net_eq_of_from_net REGISTER b2 b3 hb3 ht4]
    rw [if_neg ht4] at h
    by_cases ht5 : Message.from_net b2 b3 = REGISTER_ACK
    · rw [if_pos ht5] at h
      by_cases hsz : rest.length + 4 - 4 > MAX_SESSION_ID_SIZE
      · rw [if_pos hsz] at h
        exact Except.noConfusion h
      · rw [if_neg hsz] at h
        injection h with hm
        subst hm
        have hszB : rest.length ≤ 20 := by
          simp only [MAX_SESSION_ID_SIZE, gt_iff_lt, not_lt] at hsz
          omega
        have hgt : ¬ (rest.length > MAX_SESSION_ID_SIZE) := by
          simp only [MAX_SESSION_ID_SIZE, gt_iff_lt, not_lt]
          omega
        have hover : ¬ (rest.length + 4 > 65535) := by omega
        simp only [Message.serialize]
        rw [if_neg hgt]
        simp only [Message.serialize_payload_carrier]
        rw [if_neg hover]
        rw [Message.to_net_eq_of_from_net (rest.length + 4) b0 b1 hb1 hlen.symm]
        rw [Message.to_net_eq_of_from_net REGISTER_ACK b2 b3 hb3 ht5]
    rw [if_neg ht5] at h
    by_cases ht6 : Message.from_net b2 b3 = JOIN
    · rw [if_pos ht6] at h
      by_cases hsz : rest.length + 4 - 4 > MAX_SESSION_ID_SIZE
      · rw [if_pos hsz] at h
        exact Except.noConfusion h
      · rw [if_neg hsz] at h
        injection h with hm
        subst hm
        have hszB : rest.length ≤ 20 := by
          simp only [MAX_SESSION_ID_SIZE, gt_iff_lt, not_lt] at hsz
          omega
        have hgt : ¬ (rest.length > MAX_SESSION_ID_SIZE) := by
          simp only [MAX_SESSION_ID_SIZE, gt_iff_lt, not_lt]
          omega
        have hover : ¬ (rest.length + 4 > 65535) := by omega
        simp only [Message.serialize]
        rw [if_neg hgt]
        simp only [Message.serialize_payload_carrier]
        rw [if_neg hover]
        rw [Message.to_net_eq_of_from_net (rest.length + 4) b0 b1 hb1 hlen.symm]
        rw [Message.to_net_eq_of_from_net JOIN b2 b3 hb3 ht6]
    rw [if_neg ht6] at h
    by_cases ht7 : Message.from_net b2 b3 = SESSION_NOT_FOUND
    · rw [if_pos ht7] at h
      by_cases hsz : rest.length + 4 - 4 > MAX_SESSION_ID_SIZE
      · rw [if_pos hsz] at h
        exact Except.noConfusion h
      · rw [if_neg hsz] at h
        injection h with hm
        subst hm
        have hszB : rest.length ≤ 20 := by
          simp only [MAX_SESSION_ID_SIZE, gt_iff_lt, not_lt] at hsz
          omega
        have hgt : ¬ (rest.length > MAX_SESSION_ID_SIZE) := by
          simp only [MAX_SESSION_ID_SIZE, gt_iff_lt, not_lt]
          omega
        have hover : ¬ (rest.length + 4 > 65535) := by omega
        simp only [Message.serialize]
        rw [if_neg hgt]
        simp only [Message.serialize_payload_carrier]
        rw [if_neg hover]
        rw [Message.to_net_eq_of_from_net (rest.length + 4) b0 b1 hb1 hlen.symm]
        rw [Message.to_net_eq_of_from_net SESSION_NOT_FOUND b2 b3 hb3 ht7]
    rw [if_neg ht7] at h
    by_cases ht8 : Message.from_net b2 b3 = PEER_INFO
    · rw [if_pos ht8] at h
      by_cases hc : rest.length + 4 = 11 ∧ rest.getD 0 0 = 4
      · rw [if_pos hc] at h
        obtain ⟨hc1, hc2⟩ := hc
        injection h with hm
        subst hm
        simp only [Message.from_net, PEER_INFO] at hlen ht8
        obtain rfl : b2 = 0 := by omega
        obtain rfl : b3 = 4 := by omega
        obtain rfl : b0 = 0 := by omega
        obtain rfl : b1 = 11 := by omega
        have hlc : rest.length = 7 := by omega
        obtain ⟨r0, rest, rfl⟩ := List.exists_of_length_succ rest (by omega : rest.length = 6 + 1)
        simp only [List.length_cons] at hlc
        obtain ⟨r1, rest, rfl⟩ := List.exists_of_length_succ rest (by omega : rest.length = 5 + 1)
        simp only [List.length_cons] at hlc
        obtain ⟨r2, rest, rfl⟩ := List.exists_of_length_succ rest (by omega : rest.length = 4 + 1)
        simp only [List.length_cons] at hlc
        obtain ⟨r3, rest, rfl⟩ := List.exists_of_length_succ rest (by omega : rest.length = 3 + 1)
        simp only [List.length_cons] at hlc
        obtain ⟨r4, rest, rfl⟩ := List.exists_of_length_succ rest (by omega : rest.length = 2 + 1)
        simp only [List.length_cons] at hlc
        obtain ⟨r5, rest, rfl⟩ := List.exists_of_length_succ rest (by omega : rest.length = 1 + 1)
        simp only [List.length_cons] at hlc
        obtain ⟨r6, rest, rfl⟩ := List.exists_of_length_succ rest (by omega : rest.length = 0 + 1)
        simp only [List.length_cons] at hlc
        obtain rfl : rest = [] := List.eq_nil_of_length_eq_zero (by omega)
        obtain rfl : r0 = 4 := by simpa using hc2
        simp only [Message.serialize, List.getD_cons_zero, List.getD_cons_succ]
        rw [Message.to_net_eq_of_from_net (Message.from_net r5 r6) r5 r6
          (hrest r6 (by simp)) rfl]
        rfl
      · rw [if_neg hc] at h
        by_cases hc6 : rest.length + 4 = 23 ∧ rest.getD 0 0 = 6
        · rw [if_pos hc6] at h
          obtain ⟨hc1, hc2⟩ := hc6
          injection h with hm
          subst hm
          simp only [Message.from_net, PEER_INFO] at hlen ht8
          obtain rfl : b2 = 0 := by omega
          obtain rfl : b3 = 4 := by omega
          obtain rfl : b0 = 0 := by omega
          obtain rfl : b1 = 23 := by omega
          have hlc : rest.length = 19 := by omega
          obtain ⟨r0, rest, rfl⟩ := List.exists_of_length_succ rest (by omega : rest.length = 18 + 1)
          simp only [List.length_cons] at hlc
          obtain ⟨r1, rest, rfl⟩ := List.exists_of_length_succ rest (by omega : rest.length = 17 + 1)
          simp only [List.length_cons] at hlc
          obtain ⟨r2, rest, rfl⟩ := List.exists_of_length_succ rest (by omega : rest.length = 16 + 1)
          simp only [List.length_cons] at hlc
          obtain ⟨r3, rest, rfl⟩ := List.exists_of_length_succ rest (by omega : rest.length = 15 + 1)
          simp only [List.length_cons] at hlc
          obtain ⟨r4, rest, rfl⟩ := List.exists_of_length_succ rest (by omega : rest.length = 14 + 1)
          simp only [List.length_cons] at hlc
          obtain ⟨r5, rest, rfl⟩ := List.exists_of_length_succ rest (by omega : rest.length = 13 + 1)
          simp only [List.length_cons] at hlc
          obtain ⟨r6, rest, rfl⟩ := List.exists_of_length_succ rest (by omega : rest.length = 12 + 1)
          simp only [List.length_cons] at hlc
          obtain ⟨r7, rest, rfl⟩ := List.exists_of_length_succ rest (by omega : rest.length = 11 + 1)
          simp only [List.length_cons] at hlc
          obtain ⟨r8, rest, rfl⟩ := List.exists_of_length_succ rest (by omega : rest.length = 10 + 1)
          simp only [List.length_cons] at hlc
          obtain ⟨r9, rest, rfl⟩ := List.exists_of_length_succ rest (by omega : rest.length = 9 + 1)
          simp only [List.length_cons] at hlc
          obtain ⟨r10, rest, rfl⟩ := List.exists_of_length_succ rest (by omega : rest.length = 8 + 1)
          simp only [List.length_cons] at hlc
          obtain ⟨r11, rest, rfl⟩ := List.exists_of_length_succ rest (by omega : rest.length = 7 + 1)
          simp only [List.length_cons] at hlc
          obtain ⟨r12, rest, rfl⟩ := List.exists_of_length_succ rest (by omega : rest.length = 6 + 1)
          simp only [List.length_cons] at hlc
          obtain ⟨r13, rest, rfl⟩ := List.exists_of_length_succ rest (by omega : rest.length = 5 + 1)
          simp only [List.length_cons] at hlc
          obtain ⟨r14, rest, rfl⟩ := List.exists_of_length_succ rest (by omega : rest.length = 4 + 1)
          simp only [List.length_cons] at hlc
          obtain ⟨r15, rest, rfl⟩ := List.exists_of_length_succ rest (by omega : rest.length = 3 + 1)
          simp only [List.length_cons] at hlc
          obtain ⟨r16, rest, rfl⟩ := List.exists_of_length_succ rest (by omega : rest.length = 2 + 1)
          simp only [List.length_cons] at hlc
          obtain ⟨r17, rest, rfl⟩ := List.exists_of_length_succ rest (by omega : rest.length = 1 + 1)
          simp only [List.length_cons] at hlc
          obtain ⟨r18, rest, rfl⟩ := List.exists_of_length_succ rest (by omega : rest.length = 0 + 1)
          simp only [List.length_cons] at hlc
          obtain rfl : rest = [] := List.eq_nil_of_length_eq_zero (by omega)
          obtain rfl : r0 = 6 := by simpa using hc2
          simp only [Message.serialize, List.getD_cons_zero, List.getD_cons_succ]
          rw [Message.to_net_eq_of_from_net (Message.from_net r17 r18) r17 r18
            (hrest r18 (by simp)) rfl]
          rfl
        · rw [if_neg hc6] at h
          exact Except.noConfusion h
    rw [if_neg ht8] at h
    by_cases ht9 : Message.from_net b2 b3 = DATA
    · rw [if_pos ht9] at h
      by_cases hsz : rest.length + 4 - 4 > MAX_DATA_SIZE
      · rw [if_pos hsz] at h
        exact Except.noConfusion h
      · rw [if_neg hsz] at h
        injection h with hm
        subst hm
        have hszB : rest.length ≤ 1024 := by
          simp only [MAX_DATA_SIZE, gt_iff_lt, not_lt] at hsz
          omega
        have hgt : ¬ (rest.length > MAX_DATA_SIZE) := by
          simp only [MAX_DATA_SIZE, gt_iff_lt, not_lt]
          omega
        have hover : ¬ (rest.length + 4 > 65535) := by omega
        simp only [Message.serialize]
        rw [if_neg hgt]
        simp only [Message.serialize_payload_carrier]
        rw [if_neg hover]
        rw [Message.to_net_eq_of_from_net (rest.length + 4) b0 b1 hb1 hlen.symm]
        rw [Message.to_net_eq_of_from_net DATA b2 b3 hb3 ht9]
    rw [if_neg ht9] at h
    exact Except.noConfusion h

/-- Witness for C7 at the concrete HelloReq wire bytes. -/
theorem deserialize_encode_inverse_witness :
    Message.serialize .HelloReq = .ok [0, 4, 0, 8] :=
  deserialize_encode_inverse [0, 4, 0, 8] (by decide) .HelloReq (by rfl)

/-- The checked copy loop returns the corresponding slice of the list
whenever the requested range lies within bounds. -/
theorem Message.copyFrom_eq_take_drop (l : List Nat) :
    ∀ (cnt base : Nat), base + cnt ≤ l.length →
      Message.copyFrom l base cnt = some ((l.drop base).take cnt) := by
  intro cnt
  induction cnt with
  | zero =>
    intro base h
    simp [Message.copyFrom]
  | succ n ih =>
    intro base h
    have hbnd : base < l.length := by omega
    simp only [Message.copyFrom, List.getElem?_eq_getElem hbnd,
      ih (base + 1) (by omega), List.drop_eq_getElem_cons hbnd,
      List.take_succ_cons]

/-- Copying the whole payload of a four-byte-header datagram returns the
payload. -/
theorem Message.copyFrom_cons4 (b0 b1 b2 b3 : Nat) (rest : List Nat) :
    Message.copyFrom (b0 :: b1 :: b2 :: b3 :: rest) 4 rest.length = some rest := by
  have h := Message.copyFrom_eq_take_drop (b0 :: b1 :: b2 :: b3 :: rest)
    rest.length 4 (by simp only [List.length_cons]; omega)
  simpa using h

/-- C9: deserialize is a total function and reads only within bounds: the
companion definition that performs every slice index access of the source
as a checked access never reports an out-of-bounds access, and on every
input byte list, of any length and content, it returns exactly the verdict
of deserialize, either a message or a decode error. -/
theorem deserializeIdx_total_and_safe (l : List Nat) :
    Message.deserializeIdx l = some (Message.deserialize l) := by
  match l with
  | [] => rfl
  | [_] => rfl
  | [_, _] => rfl
  | [_, _, _] => rfl
  | b0 :: b1 :: b2 :: b3 :: rest =>
    have hL : (b0 :: b1 :: b2 :: b3 :: rest).length = rest.length + 4 := by
      simp only [List.length_cons]
    simp only [Message.deserializeIdx, Message.deserialize,
      List.getElem?_cons_zero, List.getElem?_cons_succ]
    rw [hL]
    rw [if_neg (by omega : ¬ rest.length + 4 < 4)]
    by_cases hc1 : rest.length + 4 ≠ Message.from_net b0 b1
    · rw [if_pos hc1, if_pos hc1]
    rw [if_neg hc1, if_neg hc1]
    by_cases ht1 : Message.from_net b2 b3 = LOCAL_INTERRUPT
    · rw [if_pos ht1, if_pos ht1]
      by_cases h4 : rest.length + 4 = 4
      · rw [if_pos h4, if_pos h4]
      · rw [if_neg h4, if_neg h4]
    rw [if_neg ht1, if_neg ht1]
    by_cases ht2 : Message.from_net b2 b3 = HELLO_REQ
    · rw [if_pos ht2, if_pos ht2]
      by_cases h4 : rest.length + 4 = 4
      · rw [if_pos h4, if_pos h4]
      · rw [if_neg h4, if_neg h4]
    rw [if_neg ht2, if_neg ht2]
    by_cases ht3 : Message.from_net b2 b3 = HELLO_RESP
    · rw [if_pos ht3, if_pos ht3]
      by_cases h4 : rest.length + 4 = 4
      · rw [if_pos h4, if_pos h4]
      · rw [if_neg h4, if_neg h4]
    rw [if_neg ht3, if_neg ht3]
    by_cases ht4 : Message.from_net b2 b3 = REGISTER
    · rw [if_pos ht4, if_pos ht4]
      by_cases hsz : rest.length + 4 - 4 > MAX_SESSION_ID_SIZE
      · rw [if_pos hsz, if_pos hsz]
      · rw [if_neg hsz, if_neg hsz]
        rw [show rest.length + 4 - 4 = rest.length from by omega]
        rw [Message.copyFrom_cons4]
        rfl
    rw [if_neg ht4, if_neg ht4]
    by_cases ht5 : Message.from_net b2 b3 = REGISTER_ACK
    · rw [if_pos ht5, if_pos ht5]
      by_cases hsz : rest.length + 4 - 4 > MAX_SESSION_ID_SIZE
      · rw [if_pos hsz, if_pos hsz]
      · rw [if_neg hsz, if_neg hsz]
        rw [show rest.length + 4 - 4 = rest.length from by omega]
        rw [Message.copyFrom_cons4]
        rfl
    rw [if_neg ht5, if_neg ht5]
    by_cases ht6 : Message.from_net b2 b3 = JOIN
    · rw [if_pos ht6, if_pos ht6]
      by_cases hsz : rest.length + 4 - 4 > MAX_SESSION_ID_SIZE
      · rw [if_pos hsz, if_pos hsz]
      · rw [if_neg hsz, if_neg hsz]
        rw [show rest.length + 4 - 4 = rest.length from by omega]
        rw [Message.copyFrom_cons4]
        rfl
    rw [if_neg ht6, if_neg ht6]
    by_cases ht7 : Message.from_net b2 b3 = SESSION_NOT_FOUND
    · rw [if_pos ht7, if_pos ht7]
      by_cases hsz : rest.length + 4 - 4 > MAX_SESSION_ID_SIZE
      · rw [if_pos hsz, if_pos hsz]
      · rw [if_neg hsz, if_neg hsz]
        rw [show rest.length + 4 - 4 = rest.length from by omega]
        rw [Message.copyFrom_cons4]
        rfl
    rw [if_neg ht7, if_neg ht7]
    by_cases ht8 : Message.from_net b2 b3 = PEER_INFO
    · rw [if_pos ht8, if_pos ht8]
      by_cases h11 : rest.length + 4 = 11
      · rw [if_pos h11]
        have hlc : rest.length = 7 := by omega
        obtain ⟨r0, rest, rfl⟩ := List.exists_of_length_succ rest (by omega : rest.length = 6 + 1)
        simp only [List.length_cons] at hlc
        obtain ⟨r1, rest, rfl⟩ := List.exists_of_length_succ rest (by omega : rest.length = 5 + 1)
        simp only [List.length_cons] at hlc
        obtain ⟨r2, rest, rfl⟩ := List.exists_of_length_succ rest (by omega : rest.length = 4 + 1)
        simp only [List.length_cons] at hlc
        obtain ⟨r3, rest, rfl⟩ := List.exists_of_length_succ rest (by omega : rest.length = 3 + 1)
        simp only [List.length_cons] at hlc
        obtain ⟨r4, rest, rfl⟩ := List.exists_of_length_succ rest (by omega : rest.length = 2 + 1)
        simp only [List.length_cons] at hlc
        obtain ⟨r5, rest, rfl⟩ := List.exists_of_length_succ rest (by omega : rest.length = 1 + 1)
        simp only [List.length_cons] at hlc
        obtain ⟨r6, rest, rfl⟩ := List.exists_of_length_succ rest (by omega : rest.length = 0 + 1)
        simp only [List.length_cons] at hlc
        obtain rfl : rest = [] := List.eq_nil_of_length_eq_zero (by omega)
        by_cases hf : r0 = 4
        · subst hf
          simp
        · simp [hf]
      · rw [if_neg h11]
        rw [if_neg (show ¬ (rest.length + 4 = 11 ∧ rest.getD 0 0 = 4) from
          fun hand => h11 hand.1)]
        by_cases h23 : rest.length + 4 = 23
        · rw [if_pos h23]
          have hlc : rest.length = 19 := by omega
          obtain ⟨r0, rest, rfl⟩ := List.exists_of_length_succ rest (by omega : rest.length = 18 + 1)
          simp only [List.length_cons] at hlc
          obtain ⟨r1, rest, rfl⟩ := List.exists_of_length_succ rest (by omega : rest.length = 17 + 1)
          simp only [List.length_cons] at hlc
          obtain ⟨r2, rest, rfl⟩ := List.exists_of_length_succ rest (by omega : rest.length = 16 + 1)
          simp only [List.length_cons] at hlc
          obtain ⟨r3, rest, rfl⟩ := List.exists_of_length_succ rest (by omega : rest.length = 15 + 1)
          simp only [List.length_cons] at hlc
          obtain ⟨r4, rest, rfl⟩ := List.exists_of_length_succ rest (by omega : rest.length = 14 + 1)
          simp only [List.length_cons] at hlc
          obtain ⟨r5, rest, rfl⟩ := List.exists_of_length_succ rest (by omega : rest.length = 13 + 1)
          simp only [List.length_cons] at hlc
          obtain ⟨r6, rest, rfl⟩ := List.exists_of_length_succ rest (by omega : rest.length = 12 + 1)
          simp only [List.length_cons] at hlc
          obtain ⟨r7, rest, rfl⟩ := List.exists_of_length_succ rest (by omega : rest.length = 11 + 1)
          simp only [List.length_cons] at hlc
          obtain ⟨r8, rest, rfl⟩ := List.exists_of_length_succ rest (by omega : rest.length = 10 + 1)
          simp only [List.length_cons] at hlc
          obtain ⟨r9, rest, rfl⟩ := List.exists_of_length_succ rest (by omega : rest.length = 9 + 1)
          simp only [List.length_cons] at hlc
          obtain ⟨r10, rest, rfl⟩ := List.exists_of_length_succ rest (by omega : rest.length = 8 + 1)
          simp only [List.length_cons] at hlc
          obtain ⟨r11, rest, rfl⟩ := List.exists_of_length_succ rest (by omega : rest.length = 7 + 1)
          simp only [List.length_cons] at hlc
          obtain ⟨r12, rest, rfl⟩ := List.exists_of_length_succ rest (by omega : rest.length = 6 + 1)
          simp only [List.length_cons] at hlc
          obtain ⟨r13, rest, rfl⟩ := List.exists_of_length_succ rest (by omega : rest.length = 5 + 1)
          simp only [List.length_cons] at hlc
          obtain ⟨r14, rest, rfl⟩ := List.exists_of_length_succ rest (by omega : rest.length = 4 + 1)
          simp only [List.length_cons] at hlc
          obtain ⟨r15, rest, rfl⟩ := List.exists_of_length_succ rest (by omega : rest.length = 3 + 1)
          simp only [List.length_cons] at hlc
          obtain ⟨r16, rest, rfl⟩ := List.exists_of_length_succ rest (by omega : rest.length = 2 + 1)
          simp only [List.length_cons] at hlc
          obtain ⟨r17, rest, rfl⟩ := List.exists_of_length_succ rest (by omega : rest.length = 1 + 1)
          simp only [List.length_cons] at hlc
          obtain ⟨r18, rest, rfl⟩ := List.exists_of_length_succ rest (by omega : rest.length = 0 + 1)
          simp only [List.length_cons] at hlc
          obtain rfl : rest = [] := List.eq_nil_of_length_eq_zero (by omega)
          by_cases hf : r0 = 6
          · subst hf
            simp
          · simp [hf]
        · rw [if_neg h23]
          rw [if_neg (show ¬ (rest.length + 4 = 23 ∧ rest.getD 0 0 = 6) from
            fun hand => h23 hand.1)]
    rw [if_neg ht8, if_neg ht8]
    by_cases ht9 : Message.from_net b2 b3 = DATA
    · rw [if_pos ht9, if_pos ht9]
      by_cases hsz : rest.length + 4 - 4 > MAX_DATA_SIZE
      · rw [if_pos hsz, if_pos hsz]
      · rw [if_neg hsz, if_neg hsz]
        rw [show rest.length + 4 - 4 = rest.length from by omega]
        rw [Message.copyFrom_cons4]
        rfl
    rw [if_neg ht9, if_neg ht9]

/-- Every session id carried by a successfully deserialized message
respects the decoder size guard. -/
theorem Message.deserialize_sessionId_le (l : List Nat) (m : Message)
    (h : Message.deserialize l = .ok m) :
    ∀ sid, m.sessionId = some sid → sid.length ≤ MAX_SESSION_ID_SIZE := by
  match l, h with
  | [], h => exact Except.noConfusion h
  | [_], h => exact Except.noConfusion h
  | [_, _], h => exact Except.noConfusion h
  | [_, _, _], h => exact Except.noConfusion h
  | b0 :: b1 :: b2 :: b3 :: rest, h =>
    unfold Message.deserialize at h
    split at h
    case h_2 =>
      rename_i hno
      exact (hno b0 b1 b2 b3 rest rfl).elim
    rename_i lt lb tt2 tb rest2 heq
    injection heq with e0 heq
    injection heq with e1 heq
    injection heq with e2 heq
    injection heq with e3 e4
    subst e0
    subst e1
    subst e2
    subst e3
    subst e4
    by_cases hc1 : rest.length + 4 ≠ Message.from_net b0 b1
    · rw [if_pos hc1] at h
      exact Except.noConfusion h
    rw [if_neg hc1] at h
    by_cases ht1 : Message.from_net b2 b3 = LOCAL_INTERRUPT
    · rw [if_pos ht1] at h
      by_cases h4 : rest.length + 4 = 4
      · rw [if_pos h4] at h
        injection h with hm
        subst hm
        intro sid hsid
        exact Option.noConfusion hsid
      · rw [if_neg h4] at h
        exact Except.noConfusion h
    rw [if_neg ht1] at h
    by_cases ht2 : Message.from_net b2 b3 = HELLO_REQ
    · rw [if_pos ht2] at h
      by_cases h4 : rest.length + 4 = 4
      · rw [if_pos h4] at h
        injection h with hm
        subst hm
        intro sid hsid
        exact Option.noConfusion hsid
      · rw [if_neg h4] at h
        exact Except.noConfusion h
    rw [if_neg ht2] at h
    by_cases ht3 : Message.from_net b2 b3 = HELLO_RESP
    · rw [if_pos ht3] at h
      by_cases h4 : rest.length + 4 = 4
      · rw [if_pos h4] at h
        injection h with hm
        subst hm
        intro sid hsid
        exact Option.noConfusion hsid
      · rw [if_neg h4] at h
        exact Except.noConfusion h
    rw [if_neg ht3] at h
    by_cases ht4 : Message.from_net b2 b3 = REGISTER
    · rw [if_pos ht4] at h
      by_cases hsz : rest.length + 4 - 4 > MAX_SESSION_ID_SIZE
      · rw [if_pos hsz] at h
        exact Except.noConfusion h
      · rw [if_neg hsz] at h
        injection h with hm
        subst hm
        intro sid hsid
        simp only [Message.sessionId, Option.some.injEq] at hsid
        subst hsid
        simp only [MAX_SESSION_ID_SIZE, gt_iff_lt, not_lt] at hsz ⊢
        omega
    rw [if_neg ht4] at h
    by_cases ht5 : Message.from_net b2 b3 = REGISTER_ACK
    · rw [if_pos ht5] at h
      by_cases hsz : rest.length + 4 - 4 > MAX_SESSION_ID_SIZE
      · rw [if_pos hsz] at h
        exact Except.noConfusion h
      · rw [if_neg hsz] at h
        injection h with hm
        subst hm
        intro sid hsid
        simp only [Message.sessionId, Option.some.injEq] at hsid
        subst hsid
        simp only [MAX_SESSION_ID_SIZE, gt_iff_lt, not_lt] at hsz ⊢
        omega
    rw [if_neg ht5] at h
    by_cases ht6 : Message.from_net b2 b3 = JOIN
    · rw [if_pos ht6] at h
      by_cases hsz : rest.length + 4 - 4 > MAX_SESSION_ID_SIZE
      · rw [if_pos hsz] at h
        exact Except.noConfusion h
      · rw [if_neg hsz] at h
        injection h with hm
        subst hm
        intro sid hsid
        simp only [Message.sessionId, Option.some.injEq] at hsid
        subst hsid
        simp only [MAX_SESSION_ID_SIZE, gt_iff_lt, not_lt] at hsz ⊢
        omega
    rw [if_neg ht6] at h
    by_cases ht7 : Message.from_net b2 b3 = SESSION_NOT_FOUND
    · rw [if_pos ht7] at h
      by_cases hsz : rest.length + 4 - 4 > MAX_SESSION_ID_SIZE
      · rw [if_pos hsz] at h
        exact Except.noConfusion h
      · rw [if_neg hsz] at h
        injection h with hm
        subst hm
        intro sid hsid
        simp only [Message.sessionId, Option.some.injEq] at hsid
        subst hsid
        simp only [MAX_SESSION_ID_SIZE, gt_iff_lt, not_lt] at hsz ⊢
        omega
    rw [if_neg ht7] at h
    by_cases ht8 : Message.from_net b2 b3 = PEER_INFO
    · rw [if_pos ht8] at h
      by_cases hc : rest.length + 4 = 11 ∧ rest.getD 0 0 = 4
      · rw [if_pos hc] at h
        injection h with hm
        subst hm
        intro sid hsid
        exact Option.noConfusion hsid
      · rw [if_neg hc] at h
        by_cases hc6 : rest.length + 4 = 23 ∧ rest.getD 0 0 = 6
        · rw [if_pos hc6] at h
          injection h with hm
          subst hm
          intro sid hsid
          exact Option.noConfusion hsid
        · rw [if_neg hc6] at h
          exact Except.noConfusion h
    rw [if_neg ht8] at h
    by_cases ht9 : Message.from_net b2 b3 = DATA
    · rw [if_pos ht9] at h
      by_cases hsz : rest.length + 4 - 4 > MAX_DATA_SIZE
      · rw [if_pos hsz] at h
        exact Except.noConfusion h
      · rw [if_neg hsz] at h
        injection h with hm
        subst hm
        intro sid hsid
        exact Option.noConfusion hsid
    rw [if_neg ht9] at h
    exact Except.noConfusion h


/-- A payload within the u16 length bound always serializes through the
payload carrier. -/
theorem Message.serialize_payload_carrier_isOk (packet_type : Nat)
    (payload : List Nat) (hover : ¬ (payload.length + 4 > 65535)) :
    ∃ w, Message.serialize_payload_carrier packet_type payload = .ok w :=
  ⟨(Message.to_net (payload.length + 4)).1 ::
      (Message.to_net (payload.length + 4)).2 ::
      (Message.to_net packet_type).1 :: (Message.to_net packet_type).2 ::
      payload, by
    simp only [Message.serialize_payload_carrier]
    rw [if_neg hover]⟩

/-- C10: every session id contained in a successfully deserialized message
is at most MAX_SESSION_ID_SIZE bytes, so every reply the holepuncher serve
loop emits in reaction to a decoded message, in particular the RegisterAck
and SessionNotFound replies that echo the received session id back,
serializes successfully: the SerializationFailed branch of those sends is
unreachable. -/
theorem holepuncher_replies_serialize (l : List Nat) (m : Message)
    (h : Message.deserialize l = .ok m) :
    (∀ sid, m.sessionId = some sid → sid.length ≤ MAX_SESSION_ID_SIZE) ∧
    (∀ (allow_interrupt : Bool) (store : SessionStore) (source : SocketAddr)
        (p : Message × SocketAddr),
      p ∈ (PassiveHolepuncher.serveStep allow_interrupt store
        (.ok (m, source))).sends →
      ∃ w, Message.serialize p.1 = .ok w) := by
  refine ⟨Message.deserialize_sessionId_le l m h, ?_⟩
  intro allow_interrupt store source p hp
  cases m with
  | LocalInterrupt =>
    cases allow_interrupt with
    | false =>
      simp [PassiveHolepuncher.serveStep,
        PassiveHolepuncher.ServeOutcome.sends] at hp
    | true =>
      cases hl : source.ip.is_loopback with
      | false =>
        simp [PassiveHolepuncher.serveStep,
          PassiveHolepuncher.ServeOutcome.sends, hl] at hp
      | true =>
        simp [PassiveHolepuncher.serveStep,
          PassiveHolepuncher.ServeOutcome.sends, hl] at hp
  | HelloReq =>
    simp [PassiveHolepuncher.serveStep,
      PassiveHolepuncher.ServeOutcome.sends] at hp
    subst hp
    exact ⟨_, rfl⟩
  | HelloResp =>
    simp [PassiveHolepuncher.serveStep,
      PassiveHolepuncher.ServeOutcome.sends] at hp
  | Data c =>
    simp [PassiveHolepuncher.serveStep,
      PassiveHolepuncher.ServeOutcome.sends] at hp
  | PeerInfo c =>
    simp [PassiveHolepuncher.serveStep,
      PassiveHolepuncher.ServeOutcome.sends] at hp
  | RegisterAck c =>
    simp [PassiveHolepuncher.serveStep,
      PassiveHolepuncher.ServeOutcome.sends] at hp
  | SessionNotFound c =>
    simp [PassiveHolepuncher.serveStep,
      PassiveHolepuncher.ServeOutcome.sends] at hp
  | Register c =>
    obtain ⟨sid2⟩ := c
    have hsid : sid2.length ≤ MAX_SESSION_ID_SIZE :=
      Message.deserialize_sessionId_le l _ h sid2 rfl
    simp [PassiveHolepuncher.serveStep,
      PassiveHolepuncher.ServeOutcome.sends] at hp
    subst hp
    have hs20 : sid2.length ≤ 20 := by
      simpa [MAX_SESSION_ID_SIZE] using hsid
    have hgt : ¬ (sid2.length > MAX_SESSION_ID_SIZE) := by
      simp only [MAX_SESSION_ID_SIZE, gt_iff_lt, not_lt]
      omega
    have hover : ¬ (sid2.length + 4 > 65535) := by omega
    obtain ⟨w, hw⟩ := Message.serialize_payload_carrier_isOk REGISTER_ACK sid2 hover
    refine ⟨w, ?_⟩
    simp only [Message.serialize]
    rw [if_neg hgt]
    exact hw
  | Join c =>
    obtain ⟨sid2⟩ := c
    have hsid : sid2.length ≤ MAX_SESSION_ID_SIZE :=
      Message.deserialize_sessionId_le l _ h sid2 rfl
    rcases hg : store.get sid2 with _ | S
    · simp [PassiveHolepuncher.serveStep,
        PassiveHolepuncher.ServeOutcome.sends, hg] at hp
      subst hp
      have hs20 : sid2.length ≤ 20 := by
        simpa [MAX_SESSION_ID_SIZE] using hsid
      have hgt : ¬ (sid2.length > MAX_SESSION_ID_SIZE) := by
        simp only [MAX_SESSION_ID_SIZE, gt_iff_lt, not_lt]
        omega
      have hover : ¬ (sid2.length + 4 > 65535) := by omega
      obtain ⟨w, hw⟩ := Message.serialize_payload_carrier_isOk SESSION_NOT_FOUND sid2 hover
      refine ⟨w, ?_⟩
      simp only [Message.serialize]
      rw [if_neg hgt]
      exact hw
    · simp [PassiveHolepuncher.serveStep,
        PassiveHolepuncher.ServeOutcome.sends, hg] at hp
      rcases hp with rfl | rfl
      · cases S with
        | V4 a => exact ⟨_, rfl⟩
        | V6 a => exact ⟨_, rfl⟩
      · cases source with
        | V4 a => exact ⟨_, rfl⟩
        | V6 a => exact ⟨_, rfl⟩

/-- Witness for C10: a decoded Register yields a RegisterAck reply whose
serialization succeeds. -/
theorem holepuncher_replies_serialize_witness :
    ∃ w, Message.serialize (.RegisterAck ⟨[9, 8]⟩) = .ok w :=
  (holepuncher_replies_serialize [0, 6, 0, 2, 9, 8] (.Register ⟨[9, 8]⟩)
      (by rfl)).2
    true ⟨[]⟩ (.V4 ⟨⟨10, 0, 0, 1⟩, 5⟩)
    (.RegisterAck ⟨[9, 8]⟩, .V4 ⟨⟨10, 0, 0, 1⟩, 5⟩)
    (by simp [PassiveHolepuncher.serveStep,
      PassiveHolepuncher.ServeOutcome.sends])
